import Mathlib

/-!
Shallow embedding of the QZ Tray printer wrapper (src/index.js and its
helpers module) for the connection-bootstrap core: constructor parameter
validation, supplier registration, the connect retry heuristic, the
certificate fetch, the signing request, and teardown.

JavaScript values that matter to the code (undefined vs null vs falsy
strings and numbers) are modelled by an explicit JSValue type.  Network
activity is modelled by an oracle from requests to outcomes, and every
operation that touches the network returns the list of requests it issued.
The qz-tray transport object is modelled as an explicit state (QzState)
holding the websocket-active flag, the registered suppliers, and an ordered
trace of observable events (connect calls, launch-URI navigations, error
logs).
-/

/-- A JavaScript value, as far as the wrapper code distinguishes them:
undefined, null, booleans, numbers and strings. -/
inductive JSValue where
  | undef
  | null
  | bool (b : Bool)
  | num (n : Int)
  | str (s : String)
deriving DecidableEq, Repr

/-- JavaScript truthiness for the values modelled (used by
`parameters.rawCertificate || ''` and `if (this.rawCertificate)`). -/
def truthy : JSValue → Bool
  | JSValue.undef => false
  | JSValue.null => false
  | JSValue.bool b => b
  | JSValue.num n => n != 0
  | JSValue.str s => s != ""

/-- helpers.js `required(name, param)`: throws exactly when `param` is
strictly `undefined` (strict equality `===`), otherwise returns `param`. -/
def required (name : String) (param : JSValue) : Except String JSValue :=
  if param = JSValue.undef then
    Except.error ("Parâmetro obrigatório " ++ name ++ " não declarado.")
  else
    Except.ok param

/-- True exactly on the error case of an `Except`. -/
def exceptIsErr : Except String α → Bool
  | Except.error _ => true
  | Except.ok _ => false

/-- The constructor-parameter object.  A field the caller did not supply is
`JSValue.undef`, matching JavaScript property access on a missing key. -/
structure Params where
  certificateUrl : JSValue
  signUrl : JSValue
  printer : JSValue
  rawCertificate : JSValue
deriving DecidableEq, Repr

/-- The constructed QZTrayPrinter instance fields (the transport handle is
modelled separately as QzState). -/
structure PrinterInst where
  certificateUrl : JSValue
  rawCertificate : JSValue
  signUrl : JSValue
  printer : JSValue
deriving DecidableEq, Repr

/-- The QZTrayPrinter constructor.  It performs no network activity: it sets
the promise/websocket/sha256 adapters on the qz-tray api (pure wiring), then
validates, in source order, `certificateUrl`, `rawCertificate || ''`,
`signUrl` and `printer`; each `required` call throws synchronously when the
parameter is strictly undefined. -/
def qzConstructor (p : Params) : Except String PrinterInst :=
  match required "certificateUrl" p.certificateUrl with
  | Except.error e => Except.error e
  | Except.ok cu =>
    let raw := if truthy p.rawCertificate then p.rawCertificate else JSValue.str ""
    match required "signUrl" p.signUrl with
    | Except.error e => Except.error e
    | Except.ok su =>
      match required "printer" p.printer with
      | Except.error e => Except.error e
      | Except.ok pr => Except.ok ⟨cu, raw, su, pr⟩

theorem qzConstructor_ok_iff (p : Params) (inst : PrinterInst) :
    qzConstructor p = Except.ok inst ↔
      (p.certificateUrl ≠ JSValue.undef ∧ p.signUrl ≠ JSValue.undef ∧
       p.printer ≠ JSValue.undef ∧
       inst = ⟨p.certificateUrl,
               if truthy p.rawCertificate then p.rawCertificate else JSValue.str "",
               p.signUrl, p.printer⟩) := by
  unfold qzConstructor required
  by_cases h1 : p.certificateUrl = JSValue.undef
  · simp [h1]
  · by_cases h2 : p.signUrl = JSValue.undef
    · simp [h1, h2]
    · by_cases h3 : p.printer = JSValue.undef
      · simp [h1, h2, h3]
      · simp only [if_neg h1, if_neg h2, if_neg h3]
        simp [h1, h2, h3]
        exact eq_comm

/-- Options passed to the qz-tray websocket connect call: the first attempt
passes an empty options object, the retry passes retries=2, delay=1. -/
inductive ConnectOpts where
  | empty
  | withRetry (retries delay : Nat)
deriving DecidableEq, Repr

/-- An observable transport-side event, in order of occurrence: a websocket
connect call (with its options), a navigation via window.location.assign to
a launch URI, or an error written through logError. -/
inductive QzEvent where
  | connectCall (opts : ConnectOpts)
  | launch (uri : String)
  | errorLog
deriving DecidableEq, Repr

/-- The certificate supplier registered with qz.security: either the literal
rawCertificate closure or the closure that calls fetchCertificate against
the certificate URL. -/
inductive CertSupplier where
  | literal (cert : JSValue)
  | fetchUrl (url : JSValue)
deriving DecidableEq, Repr

/-- State of the qz-tray transport object as observed by the wrapper:
the websocket-active flag, the registered certificate and signature
suppliers, and the ordered trace of observable events. -/
structure QzState where
  active : Bool
  certSupplier : Option CertSupplier
  sigSupplierSet : Bool
  events : List QzEvent
deriving DecidableEq, Repr

/-- Whether an event is a websocket connect call. -/
def QzEvent.isConnect : QzEvent → Bool
  | QzEvent.connectCall _ => true
  | _ => false

/-- Number of websocket connect calls in a trace (used to index the
connect-outcome oracle). -/
def countConnects (evs : List QzEvent) : Nat :=
  (evs.filter QzEvent.isConnect).length

/-- Outcome of an awaited asynchronous call: the promise resolved, or it
rejected with an error. -/
inductive JsOutcome where
  | resolved
  | rejected (msg : String)
deriving DecidableEq, Repr

/-- qz.websocket.connect(options): records the call in the trace; the
environment oracle decides whether the n-th connect call of the trace
succeeds (the websocket becomes active) or rejects. -/
def wsConnect (env : Nat → Bool) (s : QzState) (opts : ConnectOpts) :
    QzState × Bool :=
  let n := countConnects s.events
  let s1 : QzState := { s with events := s.events ++ [QzEvent.connectCall opts] }
  if env n then ({ s1 with active := true }, true) else (s1, false)

/-- The retry=true invocation of QZTrayPrinter.__printerConnect: if the
websocket is still inactive it navigates to the launch URI by
window.location.assign and awaits connect with the given options; a
connect rejection is caught and funnelled to __classError, which only
calls logError, so the promise resolves in every path. -/
def printerConnectRetry (env : Nat → Bool) (s : QzState) (opts : ConnectOpts) :
    QzState × JsOutcome :=
  if s.active then (s, JsOutcome.resolved)
  else
    let s1 : QzState := { s with events := s.events ++ [QzEvent.launch "qz:launch"] }
    let r := wsConnect env s1 opts
    if r.2 then (r.1, JsOutcome.resolved)
    else ({ r.1 with events := r.1.events ++ [QzEvent.errorLog] }, JsOutcome.resolved)

/-- The retry=false invocation of QZTrayPrinter.__printerConnect (as made by
start() with an empty options object): if the websocket is inactive it
awaits connect; on rejection the catch block recursively calls
__printerConnect with options retries=2, delay=1 and retry=true.  No path
re-throws. -/
def printerConnect (env : Nat → Bool) (s : QzState) (opts : ConnectOpts) :
    QzState × JsOutcome :=
  if s.active then (s, JsOutcome.resolved)
  else
    let r := wsConnect env s opts
    if r.2 then (r.1, JsOutcome.resolved)
    else printerConnectRetry env r.1 (ConnectOpts.withRetry 2 1)

/-- QZTrayPrinter.start(): registers the certificate supplier (the literal
rawCertificate closure when rawCertificate is truthy, otherwise the
fetchCertificate closure), registers the signature supplier, and then, if
the websocket is not active, awaits __printerConnect().  Its catch block
funnels any error to __classError (log only), so start() always resolves. -/
def start (inst : PrinterInst) (env : Nat → Bool) (s : QzState) :
    QzState × JsOutcome :=
  let supplier :=
    if truthy inst.rawCertificate then CertSupplier.literal inst.rawCertificate
    else CertSupplier.fetchUrl inst.certificateUrl
  let s1 : QzState := { s with certSupplier := some supplier, sigSupplierSet := true }
  if s1.active then (s1, JsOutcome.resolved)
  else printerConnect env s1 ConnectOpts.empty

/-- A JSON value, used for the signing request body built by JSON.stringify
and for the parsed JSON of the signing response. -/
inductive Json where
  | null
  | bool (b : Bool)
  | num (n : Int)
  | str (s : String)
  | arr (xs : List Json)
  | obj (fields : List (String × Json))
deriving Repr

/-- A request issued through the browser fetch API, as far as the wrapper
shapes it: target URL, HTTP method, and the JSON body (None for the GET
certificate fetch, which sends no body). -/
structure FetchRequest where
  url : JSValue
  method : String
  body : Option Json
deriving Repr

/-- Outcome of one fetch call: a network-level failure (the fetch promise
rejects), or an HTTP response with a status code, a body text (what
response.text() yields) and, when the body parses as JSON, the value that
response.json() yields. -/
inductive FetchOutcome where
  | netError (msg : String)
  | response (status : Nat) (bodyText : String) (bodyJson : Option Json)
deriving Repr

/-- QZTrayPrinter.__fetchCertificate(): one GET fetch of certificateUrl
(cors, no-cache, Content-Type text/plain); on a fulfilled fetch it resolves
with response.text() without ever reading response.status; the catch block
re-rejects a network-level failure.  Returns the list of requests issued
together with the settled value. -/
def fetchCertificate (certificateUrl : JSValue)
    (oracle : FetchRequest → FetchOutcome) :
    List FetchRequest × Except String JSValue :=
  let req : FetchRequest := ⟨certificateUrl, "GET", none⟩
  match oracle req with
  | FetchOutcome.netError e => ([req], Except.error e)
  | FetchOutcome.response _status bodyText _bodyJson =>
      ([req], Except.ok (JSValue.str bodyText))

/-- QZTrayPrinter.__singCertificate(toSign): one POST fetch of signUrl
(cors, no-cache, Content-Type application/json) whose body is
JSON.stringify of the object with single field request holding toSign; on a
fulfilled fetch it resolves with response.json(), and the catch block
re-rejects a network failure or a JSON parse failure. -/
def singCertificate (signUrl : JSValue) (toSign : String)
    (oracle : FetchRequest → FetchOutcome) :
    List FetchRequest × Except String Json :=
  let req : FetchRequest :=
    ⟨signUrl, "POST", some (Json.obj [("request", Json.str toSign)])⟩
  match oracle req with
  | FetchOutcome.netError e => ([req], Except.error e)
  | FetchOutcome.response _status _bodyText none =>
      ([req], Except.error "invalid json")
  | FetchOutcome.response _status _bodyText (some j) => ([req], Except.ok j)

/-- Running the certificate supplier that start() registered: the literal
closure resolves at once with the stored rawCertificate and issues no
fetch; the other closure runs __fetchCertificate. -/
def runCertSupplier (c : CertSupplier) (oracle : FetchRequest → FetchOutcome) :
    List FetchRequest × Except String JSValue :=
  match c with
  | CertSupplier.literal cert => ([], Except.ok cert)
  | CertSupplier.fetchUrl url => fetchCertificate url oracle

/-- Behaviour of the external qz.websocket.disconnect() during teardown:
it may succeed, throw synchronously, or return a promise that later
rejects. -/
inductive DisconnectBehavior where
  | ok
  | syncThrow (msg : String)
  | asyncReject (msg : String)
deriving DecidableEq, Repr

/-- Observable result of a close() call: how many errors were logged and
how many promise rejections escaped unhandled. -/
structure CloseResult where
  errorLogs : Nat
  unhandledRejections : Nat
deriving DecidableEq, Repr

/-- QZTrayPrinter.close(): calls this.__qz.websocket.disconnect() inside a
try/catch WITHOUT awaiting it.  A synchronous throw is caught and funnelled
to __classError (one logError call); a promise rejection happens after the
try block has been left, so it escapes the catch as an unhandled rejection
and nothing is logged.  close() itself resolves in every case. -/
def close (b : DisconnectBehavior) : CloseResult × JsOutcome :=
  match b with
  | DisconnectBehavior.ok => (⟨0, 0⟩, JsOutcome.resolved)
  | DisconnectBehavior.syncThrow _ => (⟨1, 0⟩, JsOutcome.resolved)
  | DisconnectBehavior.asyncReject _ => (⟨0, 1⟩, JsOutcome.resolved)

/-- Claim C2 (confirmed): on a bootstrap whose first transport connect
attempt fails, __printerConnect performs exactly one retry with options
retries=2, delay=1, preceded by exactly one navigation to the fixed launch
URI qz:launch; if the retry also fails no third connect attempt and no
second launch occur (only one error log is appended). -/
theorem c2_first_failure_single_retry_with_launch
    (inst : PrinterInst) (env : Nat → Bool) (s : QzState)
    (h1 : s.active = false) (h2 : s.events = []) (h3 : env 0 = false) :
    (start inst env s).1.events =
      [QzEvent.connectCall ConnectOpts.empty, QzEvent.launch "qz:launch",
       QzEvent.connectCall (ConnectOpts.withRetry 2 1)] ++
      (if env 1 then [] else [QzEvent.errorLog]) := by
  unfold start printerConnect printerConnectRetry wsConnect countConnects
  cases henv : env 1 <;>
    simp [h1, h2, h3, henv, QzEvent.isConnect]

/-- Witness for C2: a concrete instance, a fresh inactive transport and an
environment where every connect attempt fails. -/
theorem c2_witness :
    (⟨false, none, false, ([] : List QzEvent)⟩ : QzState).active = false ∧
    (⟨false, none, false, ([] : List QzEvent)⟩ : QzState).events = [] ∧
    (fun _ : Nat => false) 0 = false ∧
    (start ⟨JSValue.str "https://x/cert", JSValue.str "",
            JSValue.str "https://x/sign", JSValue.str "Zebra"⟩
      (fun _ => false) ⟨false, none, false, []⟩).1.events =
      [QzEvent.connectCall ConnectOpts.empty, QzEvent.launch "qz:launch",
       QzEvent.connectCall (ConnectOpts.withRetry 2 1)] ++
      (if (fun _ : Nat => false) 1 then [] else [QzEvent.errorLog]) :=
  ⟨rfl, rfl, rfl,
   c2_first_failure_single_retry_with_launch
     ⟨JSValue.str "https://x/cert", JSValue.str "",
      JSValue.str "https://x/sign", JSValue.str "Zebra"⟩
     (fun _ => false) ⟨false, none, false, []⟩ rfl rfl rfl⟩

/-- Counterexample to claim C1 as stated: with a fresh inactive transport
and both connect attempts failing, start() RESOLVES (JsOutcome.resolved),
it does not reject; the trace shows both failed attempts and a single
error log, so no terminal ConnectionError reaches the caller. -/
theorem c1_counterexample_start_resolves_on_double_failure :
    start ⟨JSValue.str "https://x/cert", JSValue.str "",
           JSValue.str "https://x/sign", JSValue.str "Zebra"⟩
      (fun _ => false) ⟨false, none, false, []⟩ =
    (⟨false, some (CertSupplier.fetchUrl (JSValue.str "https://x/cert")), true,
      [QzEvent.connectCall ConnectOpts.empty, QzEvent.launch "qz:launch",
       QzEvent.connectCall (ConnectOpts.withRetry 2 1), QzEvent.errorLog]⟩,
     JsOutcome.resolved) := by
  rfl

/-- Claim C1 amended: when the first connect attempt and its single retry
both fail, the error is logged exactly once (via __classError, which only
calls logError) and start() resolves normally — the error is NOT re-thrown,
so the caller's awaited call does not reject. -/
theorem c1_amended_double_failure_logs_once_and_resolves
    (inst : PrinterInst) (env : Nat → Bool) (s : QzState)
    (h1 : s.active = false) (h2 : s.events = []) (h3 : env 0 = false)
    (h4 : env 1 = false) :
    (start inst env s).2 = JsOutcome.resolved ∧
    (start inst env s).1.events =
      [QzEvent.connectCall ConnectOpts.empty, QzEvent.launch "qz:launch",
       QzEvent.connectCall (ConnectOpts.withRetry 2 1), QzEvent.errorLog] := by
  unfold start printerConnect printerConnectRetry wsConnect countConnects
  simp [h1, h2, h3, h4, QzEvent.isConnect]

/-- Witness for the amended C1 at a concrete instance, fresh transport and
an always-failing environment. -/
theorem c1_amended_witness :
    (start ⟨JSValue.str "https://x/cert", JSValue.null,
            JSValue.str "https://x/sign", JSValue.str "Zebra"⟩
      (fun _ => false) ⟨false, none, false, []⟩).2 = JsOutcome.resolved ∧
    (start ⟨JSValue.str "https://x/cert", JSValue.null,
            JSValue.str "https://x/sign", JSValue.str "Zebra"⟩
      (fun _ => false) ⟨false, none, false, []⟩).1.events =
      [QzEvent.connectCall ConnectOpts.empty, QzEvent.launch "qz:launch",
       QzEvent.connectCall (ConnectOpts.withRetry 2 1), QzEvent.errorLog] :=
  c1_amended_double_failure_logs_once_and_resolves
    ⟨JSValue.str "https://x/cert", JSValue.null,
     JSValue.str "https://x/sign", JSValue.str "Zebra"⟩
    (fun _ => false) ⟨false, none, false, []⟩ rfl rfl rfl rfl

/-- Counterexample to claim C3 as stated: with the websocket already
active, start() does leave a side effect on the transport — it
(re)registers the certificate and signature suppliers before the isActive
check — so the transport state is not unchanged. -/
theorem c3_counterexample_suppliers_registered_when_active :
    (start ⟨JSValue.str "https://x/cert", JSValue.str "",
            JSValue.str "https://x/sign", JSValue.str "Zebra"⟩
      (fun _ => false) ⟨true, none, false, []⟩).1 ≠
    (⟨true, none, false, []⟩ : QzState) := by
  decide

/-- Claim C3 amended: when the transport reports itself already open
(active = true), start() performs zero transport connect calls and returns
immediately with an unchanged event trace (no connect, no launch, no log)
and resolves; its only transport side effect is (re)registering the
certificate and signature suppliers. -/
theorem c3_amended_active_no_connect_calls
    (inst : PrinterInst) (env : Nat → Bool) (s : QzState)
    (h : s.active = true) :
    (start inst env s).1.events = s.events ∧
    (start inst env s).2 = JsOutcome.resolved ∧
    (start inst env s).1.certSupplier =
      some (if truthy inst.rawCertificate then CertSupplier.literal inst.rawCertificate
            else CertSupplier.fetchUrl inst.certificateUrl) ∧
    (start inst env s).1.sigSupplierSet = true := by
  unfold start
  simp [h]

/-- Witness for the amended C3: concrete instance and an already-active
transport state. -/
theorem c3_amended_witness :
    (start ⟨JSValue.str "u", JSValue.str "", JSValue.str "v", JSValue.str "p"⟩
      (fun _ => true) ⟨true, none, false, []⟩).1.events =
      (⟨true, none, false, ([] : List QzEvent)⟩ : QzState).events ∧
    (start ⟨JSValue.str "u", JSValue.str "", JSValue.str "v", JSValue.str "p"⟩
      (fun _ => true) ⟨true, none, false, []⟩).2 = JsOutcome.resolved ∧
    (start ⟨JSValue.str "u", JSValue.str "", JSValue.str "v", JSValue.str "p"⟩
      (fun _ => true) ⟨true, none, false, []⟩).1.certSupplier =
      some (if truthy (JSValue.str "") then CertSupplier.literal (JSValue.str "")
            else CertSupplier.fetchUrl (JSValue.str "u")) ∧
    (start ⟨JSValue.str "u", JSValue.str "", JSValue.str "v", JSValue.str "p"⟩
      (fun _ => true) ⟨true, none, false, []⟩).1.sigSupplierSet = true :=
  c3_amended_active_no_connect_calls
    ⟨JSValue.str "u", JSValue.str "", JSValue.str "v", JSValue.str "p"⟩
    (fun _ => true) ⟨true, none, false, []⟩ rfl

theorem printerConnect_preserves_certSupplier
    (env : Nat → Bool) (s : QzState) (opts : ConnectOpts) :
    (printerConnect env s opts).1.certSupplier = s.certSupplier := by
  unfold printerConnect printerConnectRetry wsConnect
  by_cases ha : s.active
  · simp [ha]
  · by_cases h0 : env (countConnects s.events)
    · simp [ha, h0]
    · by_cases h1 : env (countConnects
          (s.events ++ [QzEvent.connectCall opts, QzEvent.launch "qz:launch"])) <;>
        simp [ha, h0, h1]

/-- Claim C4 (confirmed): a constructor-parameter object missing
certificateUrl, signUrl or printer (strictly undefined) makes the
QZTrayPrinter constructor throw synchronously; the constructor performs no
network activity (its model takes no network oracle and issues no
FetchRequest). -/
theorem c4_missing_param_constructor_throws (p : Params)
    (h : p.certificateUrl = JSValue.undef ∨ p.signUrl = JSValue.undef ∨
         p.printer = JSValue.undef) :
    exceptIsErr (qzConstructor p) = true := by
  cases hq : qzConstructor p with
  | error e => simp [exceptIsErr]
  | ok inst =>
      obtain ⟨n1, n2, n3, _⟩ := (qzConstructor_ok_iff p inst).mp hq
      rcases h with h | h | h
      · exact absurd h n1
      · exact absurd h n2
      · exact absurd h n3

/-- Witness for C4: a parameter object with no certificateUrl key. -/
theorem c4_witness :
    exceptIsErr (qzConstructor ⟨JSValue.undef, JSValue.str "https://x/sign",
      JSValue.str "Zebra", JSValue.undef⟩) = true :=
  c4_missing_param_constructor_throws
    ⟨JSValue.undef, JSValue.str "https://x/sign", JSValue.str "Zebra",
     JSValue.undef⟩ (Or.inl rfl)

/-- Claim C5 (confirmed): an instance constructed with a non-empty literal
certificate string has start() register the literal certificate supplier
(for any transport state and any connect outcome), and running that
supplier resolves immediately with exactly that string while issuing no
network fetch. -/
theorem c5_literal_certificate_no_fetch
    (p : Params) (inst : PrinterInst) (env : Nat → Bool) (s : QzState)
    (oracle : FetchRequest → FetchOutcome) (c : String)
    (hraw : p.rawCertificate = JSValue.str c) (hc : c ≠ "")
    (hcons : qzConstructor p = Except.ok inst) :
    (start inst env s).1.certSupplier =
      some (CertSupplier.literal (JSValue.str c)) ∧
    runCertSupplier (CertSupplier.literal (JSValue.str c)) oracle =
      ([], Except.ok (JSValue.str c)) := by
  obtain ⟨n1, n2, n3, hinst⟩ := (qzConstructor_ok_iff p inst).mp hcons
  have htr : truthy (JSValue.str c) = true := by
    simp [truthy, hc]
  have hrc : inst.rawCertificate = JSValue.str c := by
    rw [hinst, hraw]; simp [htr]
  refine ⟨?_, rfl⟩
  have hx : (start inst env s).1.certSupplier =
      some (if truthy inst.rawCertificate then
              CertSupplier.literal inst.rawCertificate
            else CertSupplier.fetchUrl inst.certificateUrl) := by
    unfold start
    by_cases ha : s.active
    · simp [ha]
    · simp [ha, printerConnect_preserves_certSupplier]
  rw [hx, hrc]
  simp [htr]

/-- Witness for C5: a parameter object with rawCertificate CERT; the
constructed instance is the one qzConstructor yields for it. -/
theorem c5_witness :
    (start ⟨JSValue.str "https://x/cert", JSValue.str "CERT",
            JSValue.str "https://x/sign", JSValue.str "Zebra"⟩
      (fun _ => false) ⟨false, none, false, []⟩).1.certSupplier =
      some (CertSupplier.literal (JSValue.str "CERT")) ∧
    runCertSupplier (CertSupplier.literal (JSValue.str "CERT"))
      (fun _ => FetchOutcome.netError "unreachable") =
      ([], Except.ok (JSValue.str "CERT")) :=
  c5_literal_certificate_no_fetch
    ⟨JSValue.str "https://x/cert", JSValue.str "https://x/sign",
     JSValue.str "Zebra", JSValue.str "CERT"⟩
    ⟨JSValue.str "https://x/cert", JSValue.str "CERT",
     JSValue.str "https://x/sign", JSValue.str "Zebra"⟩
    (fun _ => false) ⟨false, none, false, []⟩
    (fun _ => FetchOutcome.netError "unreachable") "CERT"
    rfl (by decide) rfl

/-- Claim C6 (confirmed): for any to-sign payload, __singCertificate issues
exactly one POST to the signing endpoint whose JSON body is exactly the
object with the single field request holding the payload, and when that
request yields a response whose body parses as JSON it resolves with the
parsed JSON value. -/
theorem c6_sign_single_post_exact_body
    (signUrl : JSValue) (toSign : String)
    (oracle : FetchRequest → FetchOutcome) (st : Nat) (bt : String) (j : Json)
    (h : oracle ⟨signUrl, "POST", some (Json.obj [("request", Json.str toSign)])⟩ =
         FetchOutcome.response st bt (some j)) :
    singCertificate signUrl toSign oracle =
      ([⟨signUrl, "POST", some (Json.obj [("request", Json.str toSign)])⟩],
       Except.ok j) := by
  simp [singCertificate, h]

/-- Witness for C6: a concrete payload and a server returning a JSON
signature. -/
theorem c6_witness :
    singCertificate (JSValue.str "https://x/sign") "payload"
      (fun _ => FetchOutcome.response 200 "ok" (some (Json.str "sig"))) =
      ([⟨JSValue.str "https://x/sign", "POST",
         some (Json.obj [("request", Json.str "payload")])⟩],
       Except.ok (Json.str "sig")) :=
  c6_sign_single_post_exact_body (JSValue.str "https://x/sign") "payload"
    (fun _ => FetchOutcome.response 200 "ok" (some (Json.str "sig")))
    200 "ok" (Json.str "sig") rfl

/-- Counterexample to claim C7 as stated: on an HTTP 404 response the
certificate supplier RESOLVES with the response body text — the code never
reads response.status — instead of failing. -/
theorem c7_counterexample_non2xx_resolves_with_body :
    fetchCertificate (JSValue.str "https://x/cert")
      (fun _ => FetchOutcome.response 404 "Not Found" none) =
      ([⟨JSValue.str "https://x/cert", "GET", none⟩],
       Except.ok (JSValue.str "Not Found")) := rfl

/-- Claim C7 amended: the certificate supplier fails (re-rejects) exactly
on network-level fetch failures; the HTTP status is never inspected, so a
non-2xx response resolves with its body text (see the counterexample). -/
theorem c7_amended_network_failure_rejects (url : JSValue)
    (oracle : FetchRequest → FetchOutcome) (e : String)
    (h : oracle ⟨url, "GET", none⟩ = FetchOutcome.netError e) :
    fetchCertificate url oracle = ([⟨url, "GET", none⟩], Except.error e) := by
  simp [fetchCertificate, h]

/-- Witness for the amended C7: a fetch that fails at the network level. -/
theorem c7_amended_witness :
    fetchCertificate (JSValue.str "https://x/cert")
      (fun _ => FetchOutcome.netError "ECONNREFUSED") =
      ([⟨JSValue.str "https://x/cert", "GET", none⟩],
       Except.error "ECONNREFUSED") :=
  c7_amended_network_failure_rejects (JSValue.str "https://x/cert")
    (fun _ => FetchOutcome.netError "ECONNREFUSED") "ECONNREFUSED" rfl

/-- Claim C8 (code bug): when the transport's disconnect() returns a
promise that rejects, close() resolves normally but ZERO errors are logged
and the rejection escapes unhandled, because close() does not await
disconnect() inside its try/catch; the claim (and spec) say the failure is
logged exactly once. -/
theorem c8_async_reject_escapes_unlogged :
    close (DisconnectBehavior.asyncReject "boom") =
      (⟨0, 1⟩, JsOutcome.resolved) := rfl

/-- Counterexample to claim C9 as stated: a credentials object supplying a
signing endpoint and a printer but neither rawCertificate nor a
certificateUrl key does NOT construct; required throws on the undefined
certificateUrl. -/
theorem c9_counterexample_missing_certificateUrl_key_throws :
    qzConstructor ⟨JSValue.undef, JSValue.str "https://x/sign",
      JSValue.str "Zebra", JSValue.undef⟩ =
      Except.error "Parâmetro obrigatório certificateUrl não declarado." := rfl

/-- Claim C9 amended: the certificateUrl key must at least be present
(defined); given defined certificateUrl, signUrl and printer, construction
succeeds for ANY values — in particular with certificateUrl null and no
rawCertificate — and no local check rejects the absence of a usable
certificate. -/
theorem c9_amended_defined_fields_construct_ok (p : Params)
    (h1 : p.certificateUrl ≠ JSValue.undef) (h2 : p.signUrl ≠ JSValue.undef)
    (h3 : p.printer ≠ JSValue.undef) :
    ∃ inst, qzConstructor p = Except.ok inst :=
  ⟨_, (qzConstructor_ok_iff p _).mpr ⟨h1, h2, h3, rfl⟩⟩

/-- Witness for the amended C9: signing endpoint and printer present,
certificateUrl null, no rawCertificate — construction succeeds. -/
theorem c9_amended_witness :
    ∃ inst, qzConstructor ⟨JSValue.null, JSValue.str "https://x/sign",
      JSValue.str "Zebra", JSValue.undef⟩ = Except.ok inst :=
  c9_amended_defined_fields_construct_ok
    ⟨JSValue.null, JSValue.str "https://x/sign", JSValue.str "Zebra",
     JSValue.undef⟩ (by decide) (by decide) (by decide)

/-- Claim C10 (confirmed): required(name, param) throws exactly when param
is strictly undefined and otherwise returns param unchanged; consequently a
constructor call whose certificateUrl, signUrl and printer are defined —
including null, the empty string, 0 or false — does not throw and stores
those values as given (rawCertificate additionally passes through the
or-empty-string default). -/
theorem c10_required_iff_undefined_and_constructor_stores
    (name : String) (param : JSValue) (p : Params)
    (h1 : p.certificateUrl ≠ JSValue.undef) (h2 : p.signUrl ≠ JSValue.undef)
    (h3 : p.printer ≠ JSValue.undef) :
    (exceptIsErr (required name param) = true ↔ param = JSValue.undef) ∧
    (required name param = Except.ok param ↔ param ≠ JSValue.undef) ∧
    qzConstructor p = Except.ok
      ⟨p.certificateUrl,
       if truthy p.rawCertificate then p.rawCertificate else JSValue.str "",
       p.signUrl, p.printer⟩ := by
  refine ⟨?_, ?_, (qzConstructor_ok_iff p _).mpr ⟨h1, h2, h3, rfl⟩⟩ <;>
    by_cases hu : param = JSValue.undef <;>
      simp [required, exceptIsErr, hu]

/-- Witness for C10: null certificateUrl, empty-string signUrl, the number
0 as printer, false as rawCertificate. -/
theorem c10_witness :
    (exceptIsErr (required "certificateUrl" JSValue.null) = true ↔
      JSValue.null = JSValue.undef) ∧
    (required "certificateUrl" JSValue.null = Except.ok JSValue.null ↔
      JSValue.null ≠ JSValue.undef) ∧
    qzConstructor ⟨JSValue.null, JSValue.str "", JSValue.num 0,
      JSValue.bool false⟩ = Except.ok
      ⟨JSValue.null,
       if truthy (JSValue.bool false) then JSValue.bool false else JSValue.str "",
       JSValue.str "", JSValue.num 0⟩ :=
  c10_required_iff_undefined_and_constructor_stores "certificateUrl"
    JSValue.null
    ⟨JSValue.null, JSValue.str "", JSValue.num 0, JSValue.bool false⟩
    (by decide) (by decide) (by decide)
